import Mathlib

/-!
Shallow embedding of the computation core of `btc-ai-api`
(`indicators.py`, `analyzer.py`, `analysis.py`, `client.py`),
with theorems settling the specification claims about it.

Numbers are modelled as exact rationals (`ℚ`); Python decimal literals such
as `1.002` are exact in this model.  The sample standard deviation returned
by `statistics.stdev` is irrational in general, so the embedding carries its
square (the sample variance) and statements about the standard deviation
itself are phrased through `Real.sqrt` of that carried value.
-/

namespace BtcAiApi

/-- Error values raised by the embedded Python code.  The first two names
follow the spec taxonomy: `configurationError` is the
`ValueError("window must be positive")` raised by `moving_average`;
`insufficientDataError` is the `ValueError("not enough data points for the
requested window")` of `moving_average` and the
`ValueError("Not enough data to compute signals")` of `generate_signal`.
`statisticsError` is the `statistics.StatisticsError` raised by
`statistics.mean` on an empty sequence and by `statistics.stdev` on fewer
than two data points. -/
inductive PyError where
  | configurationError
  | insufficientDataError
  | statisticsError
  deriving DecidableEq, Repr

/-- Embeds the dataclass `PricePoint` of `data.py`: a timestamp (modelled as
an integer; only its ordering role matters and no claim touches it) and a
price. -/
structure PricePoint where
  time : ℤ
  price : ℚ
  deriving DecidableEq, Repr, Inhabited

/-- The last `n` elements of a list, in order: Python `l[-n:]` for `n > 0`
clamped at the full list when `n ≥ len(l)` (natural subtraction saturates
exactly like Python's clamping). -/
def lastN (l : List α) (n : ℕ) : List α :=
  l.drop (l.length - n)

/-- Python slice `l[-w:]` for an arbitrary integer `w`.  For `w > 0` the
start index `-w` is clamped below at `0`, giving the last `w` elements; for
`w ≤ 0` the start index is the plain nonnegative index `-w`, clamped above
at the length (List.drop saturates the same way). -/
def pyLastSlice (l : List α) (w : ℤ) : List α :=
  if 0 < w then lastN l w.toNat else l.drop (-w).toNat

/-- Embeds `statistics.mean`: the arithmetic mean, raising
`StatisticsError` on an empty sequence. -/
def pyMean (l : List ℚ) : Except PyError ℚ :=
  if l.isEmpty then .error .statisticsError
  else .ok (l.sum / (l.length : ℚ))

/-- Sample variance `Σ (x - mean)² / (n - 1)` of a list, the square of the
value computed by `statistics.stdev` (which is `sqrt` of exactly this
quantity).  Only meaningful for lists of length ≥ 2; the callers guard. -/
def sampleVarQ (l : List ℚ) : ℚ :=
  (l.map (fun x => (x - l.sum / (l.length : ℚ)) ^ 2)).sum / ((l.length : ℚ) - 1)

/-- Embeds `statistics.stdev`, squared: raises `StatisticsError` on fewer
than two data points, otherwise the square of the sample standard
deviation, i.e. the sample variance.  The source's return value is
`Real.sqrt` of the value carried here. -/
def pyStdevSq (l : List ℚ) : Except PyError ℚ :=
  if l.length < 2 then .error .statisticsError
  else .ok (sampleVarQ l)

/-- Embeds `moving_average` of `indicators.py`:
raises for a non-positive window, raises when fewer points than the window
are available, and otherwise takes `statistics.mean` of the last `window`
elements. -/
def moving_average (prices : List ℚ) (window : ℤ) : Except PyError ℚ :=
  if window ≤ 0 then .error .configurationError
  else if (prices.length : ℤ) < window then .error .insufficientDataError
  else pyMean (lastN prices window.toNat)

/-- Embeds `price_change` of `indicators.py`: percent change between the
second-to-last and last points, `0` when fewer than two points exist or
when the second-to-last price is `0`. -/
def price_change (points : List PricePoint) : ℚ :=
  if points.length < 2 then 0
  else
    let start := ((points.getD (points.length - 2) default).price)
    let stop := ((points.getD (points.length - 1) default).price)
    if start = 0 then 0 else (stop - start) / start * 100

/-- Embeds `volatility` of `indicators.py`, with the standard deviation
carried squared (see `pyStdevSq`): returns `0` when the series has fewer
points than the window, otherwise `statistics.stdev` of the prices of the
slice `points[-window:]`, squared.  The window is an arbitrary integer, as
in Python, and is not validated. -/
def volatilitySq (points : List PricePoint) (window : ℤ) : Except PyError ℚ :=
  if (points.length : ℤ) < window then .ok 0
  else pyStdevSq ((pyLastSlice points window).map PricePoint.price)

/-- Decides `Real.sqrt v > t` for a nonnegative rational `v` without
leaving `ℚ`: a negative threshold is always exceeded (square roots are
nonnegative), and a nonnegative threshold is exceeded exactly when
`v > t²`.  Used to embed the comparison `vol > 0.01 * long_ma` of
`generate_signal`, where `vol` is carried squared; the lemma
`sqrtGtQ_iff` below proves the correspondence. -/
def sqrtGtQ (v t : ℚ) : Bool :=
  if t < 0 then true else decide (t ^ 2 < v)

/-- Embeds the dataclass `Signal` of `analyzer.py`.  The `details` dict's
five entries are fields here; `volatility` is carried squared
(`volatilitySq`, see `pyStdevSq`). -/
structure Signal where
  sentiment : String
  headline : String
  price : ℚ
  short_ma : ℚ
  long_ma : ℚ
  volatilitySq : ℚ
  change_pct : ℚ
  caution : String
  deriving DecidableEq, Repr

/-- The fixed disclaimer string attached to every signal. -/
def cautionText : String :=
  "⚠️ 以上信号基于公开数据与简单指标，仅供参考，不构成投资建议；数字资产波动大，请自行评估风险。"

/-- The volatility suffix appended to the headline when
`vol > 0.01 * long_ma`. -/
def volSuffix : String := "；波动率升高，需控制仓位"

/-- The sentiment/headline pair chosen by `generate_signal`'s `if`/`elif`
dead-band branching (the source mutates two local variables; here the pair
is built in one expression with the same conditions in the same order). -/
def classify (short_ma long_ma change_pct : ℚ) : String × String :=
  if short_ma > long_ma * 1.002 ∧ change_pct > 0 then
    ("偏多", "短期均线上穿长期均线，动能向上")
  else if short_ma < long_ma * 0.998 ∧ change_pct < 0 then
    ("偏空", "短期均线下穿长期均线，注意回调")
  else ("中性", "价格信号不明显")

/-- The headline after `generate_signal`'s volatility step: the suffix is
appended when `vol > threshold` (decided by `sqrtGtQ` since `vol` is
carried squared). -/
def headlineWith (base : String) (vol threshold : ℚ) : String :=
  if sqrtGtQ vol threshold then base ++ volSuffix else base

/-- Embeds `generate_signal` of `analyzer.py` (defaults
`short_window = 20`, `long_window = 60`): raises when fewer than
`long_window` points are supplied, computes the two moving averages, the
volatility over `min(len(points), 60)` points and the recent percent
change, classifies the sentiment with a 0.2 % dead-band (`classify`),
appends the volatility suffix when `vol > 0.01 * long_ma`
(`headlineWith`) and attaches the fixed caution.  The last price
`prices[-1]` is modelled with `getLastD`; the list is nonempty whenever
that point is reached (the moving averages succeeded). -/
def generate_signal (points : List PricePoint) (short_window : ℤ := 20)
    (long_window : ℤ := 60) : Except PyError Signal :=
  if (points.length : ℤ) < long_window then .error .insufficientDataError
  else
    let prices := points.map PricePoint.price
    match moving_average prices short_window with
    | .error e => .error e
    | .ok short_ma =>
      match moving_average prices long_window with
      | .error e => .error e
      | .ok long_ma =>
        match volatilitySq points (min (points.length : ℤ) 60) with
        | .error e => .error e
        | .ok vol =>
          let change_pct := price_change points
          .ok { sentiment := (classify short_ma long_ma change_pct).1
                headline := headlineWith (classify short_ma long_ma change_pct).2
                  vol (0.01 * long_ma)
                price := (prices.getLastD 0)
                short_ma := short_ma
                long_ma := long_ma
                volatilitySq := vol
                change_pct := change_pct
                caution := cautionText }

/-- Embeds the dataclass `Recommendation` of `analysis.py`: an action label
and an ordered list of reasons. -/
structure Recommendation where
  action : String
  reasons : List String
  deriving DecidableEq, Repr

/-- Round a rational to the nearest integer, ties to even, modelling the
rounding Python's fixed-point float formatting performs. -/
def roundHalfEvenQ (q : ℚ) : ℤ :=
  if q - (⌊q⌋ : ℚ) < 1/2 then ⌊q⌋
  else if 1/2 < q - (⌊q⌋ : ℚ) then ⌊q⌋ + 1
  else if ⌊q⌋ % 2 = 0 then ⌊q⌋ else ⌊q⌋ + 1

/-- Models Python's format spec `+.2f` on the exact rational value: an
explicit sign followed by the magnitude rounded to two decimal places. -/
def fmtPlus2 (q : ℚ) : String :=
  let sign := if q < 0 then "-" else "+"
  let cents := (roundHalfEvenQ (|q| * 100)).toNat
  sign ++ toString (cents / 100) ++ "." ++
    (if cents % 100 < 10 then "0" else "") ++ toString (cents % 100)

/-- The slice of the `market_data` dict that `summarize_trend` reads: the
three percentage-change entries, each possibly absent (Python
`dict.get(key, 0.0)` supplies the default). -/
structure TrendInput where
  price_change_percentage_1h_in_currency : Option ℚ
  price_change_percentage_24h_in_currency : Option ℚ
  price_change_percentage_7d_in_currency : Option ℚ
  deriving DecidableEq, Repr

/-- The action/reason pair chosen by `summarize_trend`'s `if`/`elif`/`else`
over the 1h and 24h thresholds (the source sets two locals; here the pair
is built in one expression with the same conditions in the same order). -/
def trendAction (one_hour day : ℚ) : String × String :=
  if one_hour > 0.25 ∧ day > 0.5 then
    ("Consider buying", "Momentum is positive across multiple timeframes.")
  else if one_hour < -0.25 ∧ day < -0.5 then
    ("Consider reducing exposure",
     "Downward pressure visible in short-term and daily moves.")
  else
    ("Hold / wait", "Signals are mixed; waiting for clarity may reduce risk.")

/-- The reasons `summarize_trend`'s trailing `if`/`elif` appends from the
7d threshold (possibly none). -/
def weeklyNotes (week : ℚ) : List String :=
  if week > 5 then ["Strong weekly performance suggests upward trend."]
  else if week < -5 then
    ["Sustained weekly drawdown indicates elevated downside risk."]
  else []

/-- Embeds `summarize_trend` of `analysis.py`: three formatted-change
reasons, a primary action chosen from the 1h/24h thresholds with its own
reason (`trendAction`), then an unconditional weekly augmentation from the
7d threshold (`weeklyNotes`).  The source's locals `one_hour`, `day`,
`week` (dict `get` with default `0.0`) are inlined. -/
def summarize_trend (md : TrendInput) : Recommendation where
  action :=
    (trendAction (md.price_change_percentage_1h_in_currency.getD 0)
      (md.price_change_percentage_24h_in_currency.getD 0)).1
  reasons :=
    ["1h change: " ++ fmtPlus2 (md.price_change_percentage_1h_in_currency.getD 0) ++ "%",
     "24h change: " ++ fmtPlus2 (md.price_change_percentage_24h_in_currency.getD 0) ++ "%",
     "7d change: " ++ fmtPlus2 (md.price_change_percentage_7d_in_currency.getD 0) ++ "%"] ++
    [(trendAction (md.price_change_percentage_1h_in_currency.getD 0)
      (md.price_change_percentage_24h_in_currency.getD 0)).2] ++
    weeklyNotes (md.price_change_percentage_7d_in_currency.getD 0)

/-- Errors raised while building a market snapshot in `client.py`.
`dataSourceError` is the spec-taxonomy name of the
`ValueError("Market data missing required fields: ...")` raised by
`_validate_record`; `typeError` is the `TypeError` Python's `float(...)`
raises on `None`; `keyError` is a `KeyError` from indexing a missing key
(unreachable after validation). -/
inductive SnapError where
  | dataSourceError
  | typeError
  | keyError
  deriving DecidableEq, Repr

/-- A raw provider record as seen by `MarketDataClient`: each JSON field is
absent (`none`), present but null (`some none`), or a number
(`some (some v)`). -/
structure RawRecord where
  current_price : Option (Option ℚ)
  high_24h : Option (Option ℚ)
  low_24h : Option (Option ℚ)
  market_cap : Option (Option ℚ)
  total_volume : Option (Option ℚ)
  price_change_percentage_1h_in_currency : Option (Option ℚ)
  price_change_percentage_24h_in_currency : Option (Option ℚ)
  price_change_percentage_7d_in_currency : Option (Option ℚ)
  deriving DecidableEq, Repr

/-- The snapshot dict `fetch_bitcoin_snapshot` returns (minus the
`fetched_at` wall-clock timestamp, which no claim touches). -/
structure Snapshot where
  price : ℚ
  high_24h : ℚ
  low_24h : ℚ
  market_cap : ℚ
  total_volume : ℚ
  price_change_percentage_1h_in_currency : ℚ
  price_change_percentage_24h_in_currency : ℚ
  price_change_percentage_7d_in_currency : ℚ
  deriving DecidableEq, Repr

/-- A field is missing in the sense of `_validate_record`: the Python test
`field not in record or record[field] is None`. -/
def isMissingField : Option (Option ℚ) → Bool
  | none => true
  | some none => true
  | some (some _) => false

/-- Embeds `MarketDataClient._validate_record` over the five required
fields of `_required_fields`: raises when the list of missing fields is
nonempty. -/
def validate_record (r : RawRecord) : Except SnapError Unit :=
  if ([r.current_price, r.high_24h, r.low_24h, r.market_cap,
       r.total_volume].filter isMissingField) ≠ [] then
    .error .dataSourceError
  else .ok ()

/-- Python `float(x)` applied to a JSON value: a number converts, `None`
raises `TypeError`. -/
def pyFloat : Option ℚ → Except SnapError ℚ
  | some v => .ok v
  | none => .error .typeError

/-- Python `record[key]` followed by `float(...)`: a missing key raises
`KeyError`, then `float` converts as `pyFloat`. -/
def pyItemFloat : Option (Option ℚ) → Except SnapError ℚ
  | none => .error .keyError
  | some o => pyFloat o

/-- Python `float(record.get(key, 0.0))`: an absent key yields the default
`0.0`, a present key yields its value (possibly `None`), then `float`
converts as `pyFloat`. -/
def pyGetFloat (f : Option (Option ℚ)) : Except SnapError ℚ :=
  pyFloat (f.getD (some 0))

/-- Embeds the record-validation and snapshot-construction tail of
`MarketDataClient.fetch_bitcoin_snapshot` (after the HTTP fetch and
JSON parsing, which are external): `_validate_record` then the field-wise
`float(...)` conversions building the returned dict. -/
def build_snapshot (r : RawRecord) : Except SnapError Snapshot :=
  match validate_record r with
  | .error e => .error e
  | .ok _ => do
    let price ← pyItemFloat r.current_price
    let high ← pyItemFloat r.high_24h
    let low ← pyItemFloat r.low_24h
    let cap ← pyItemFloat r.market_cap
    let volume ← pyItemFloat r.total_volume
    let c1 ← pyGetFloat r.price_change_percentage_1h_in_currency
    let c24 ← pyGetFloat r.price_change_percentage_24h_in_currency
    let c7 ← pyGetFloat r.price_change_percentage_7d_in_currency
    return { price := price
             high_24h := high
             low_24h := low
             market_cap := cap
             total_volume := volume
             price_change_percentage_1h_in_currency := c1
             price_change_percentage_24h_in_currency := c24
             price_change_percentage_7d_in_currency := c7 }

/-- Arithmetic mean of a list of rationals, as the spec describes
`movingAverage`'s result: the sum over the count. -/
def arithMean (l : List ℚ) : ℚ := l.sum / (l.length : ℚ)

/-- A list of rationals is strictly increasing from each element to the
next. -/
def risingQ : List ℚ → Prop
  | [] => True
  | [_] => True
  | a :: b :: l => a < b ∧ risingQ (b :: l)

instance decRisingQ : (l : List ℚ) → Decidable (risingQ l)
  | [] => isTrue trivial
  | [_] => isTrue trivial
  | _ :: b :: l => @instDecidableAnd _ _ _ (decRisingQ (b :: l))

/-- A list of rationals is strictly decreasing from each element to the
next. -/
def fallingQ : List ℚ → Prop
  | [] => True
  | [_] => True
  | a :: b :: l => b < a ∧ fallingQ (b :: l)

instance decFallingQ : (l : List ℚ) → Decidable (fallingQ l)
  | [] => isTrue trivial
  | [_] => isTrue trivial
  | _ :: b :: l => @instDecidableAnd _ _ _ (decFallingQ (b :: l))

/-- The means over successive length-`w` windows of the series strictly
increase as the window slides forward. -/
abbrev windowMeansRising (prices : List ℚ) (w : ℕ) : Prop :=
  ∀ i ∈ List.range (prices.length - w),
    arithMean ((prices.drop i).take w) < arithMean ((prices.drop (i + 1)).take w)

/-- The means over successive length-`w` windows of the series strictly
decrease as the window slides forward. -/
abbrev windowMeansFalling (prices : List ℚ) (w : ℕ) : Prop :=
  ∀ i ∈ List.range (prices.length - w),
    arithMean ((prices.drop (i + 1)).take w) < arithMean ((prices.drop i).take w)

theorem lastN_length (l : List α) (n : ℕ) : (lastN l n).length = min n l.length := by
  simp only [lastN, List.length_drop]
  omega

theorem sampleVarQ_nonneg (l : List ℚ) (h : 2 ≤ l.length) : 0 ≤ sampleVarQ l := by
  unfold sampleVarQ
  apply div_nonneg
  · refine List.sum_nonneg fun x hx => ?_
    obtain ⟨y, -, rfl⟩ := List.mem_map.mp hx
    positivity
  · have h2 : (2 : ℚ) ≤ (l.length : ℚ) := by exact_mod_cast h
    linarith

theorem sqrtGtQ_iff (v t : ℚ) :
    sqrtGtQ v t = true ↔ ((t : ℝ) < Real.sqrt (v : ℝ)) := by
  unfold sqrtGtQ
  split
  · rename_i hneg
    simp only [true_iff]
    calc (t : ℝ) < 0 := by exact_mod_cast hneg
      _ ≤ Real.sqrt (v : ℝ) := Real.sqrt_nonneg _
  · rename_i hpos
    push_neg at hpos
    rw [decide_eq_true_eq, Real.lt_sqrt (by exact_mod_cast hpos)]
    constructor
    · intro h; exact_mod_cast h
    · intro h; exact_mod_cast h

theorem moving_average_ok (prices : List ℚ) (w : ℤ) (h0 : 0 < w)
    (hle : w ≤ (prices.length : ℤ)) :
    moving_average prices w = .ok (arithMean (lastN prices w.toNat)) := by
  have hlen : (lastN prices w.toNat).length = w.toNat := by
    rw [lastN_length]; omega
  unfold moving_average pyMean
  rw [if_neg (by omega), if_neg (by omega), if_neg (by
    simp only [List.isEmpty_iff, ← List.length_eq_zero]
    omega)]
  rfl

theorem arithMean_lastN (prices : List ℚ) (w : ℤ) (h0 : 0 < w)
    (hle : w ≤ (prices.length : ℤ)) :
    arithMean (lastN prices w.toNat) = (lastN prices w.toNat).sum / (w : ℚ) := by
  have hlen : (lastN prices w.toNat).length = w.toNat := by
    rw [lastN_length]; omega
  have hcast : ((w.toNat : ℕ) : ℚ) = ((w : ℤ) : ℚ) := by
    exact_mod_cast congrArg (fun z : ℤ => (z : ℚ)) (Int.toNat_of_nonneg h0.le)
  rw [arithMean, hlen, hcast]

theorem volatilitySq_ok (pts : List PricePoint) (w : ℤ) (h2 : 2 ≤ w)
    (hle : w ≤ (pts.length : ℤ)) :
    volatilitySq pts w = .ok (sampleVarQ ((lastN pts w.toNat).map PricePoint.price)) := by
  have hlen : (lastN pts w.toNat).length = w.toNat := by
    rw [lastN_length]; omega
  unfold volatilitySq pyLastSlice pyStdevSq
  rw [if_neg (by omega), if_pos (by omega : (0 : ℤ) < w), if_neg (by
    simp only [List.length_map, hlen]
    omega)]

/-- The `Signal` value `generate_signal` produces once every guard has
passed: the same arithmetic and branching as `generate_signal`, with the
error paths gone (`generate_signal_eq` proves the correspondence). -/
def signalCore (points : List PricePoint) (sw lw : ℤ) : Signal where
  sentiment :=
    (classify (arithMean (lastN (points.map PricePoint.price) sw.toNat))
      (arithMean (lastN (points.map PricePoint.price) lw.toNat))
      (price_change points)).1
  headline :=
    headlineWith
      (classify (arithMean (lastN (points.map PricePoint.price) sw.toNat))
        (arithMean (lastN (points.map PricePoint.price) lw.toNat))
        (price_change points)).2
      (sampleVarQ ((lastN points (min points.length 60)).map PricePoint.price))
      (0.01 * arithMean (lastN (points.map PricePoint.price) lw.toNat))
  price := (points.map PricePoint.price).getLastD 0
  short_ma := arithMean (lastN (points.map PricePoint.price) sw.toNat)
  long_ma := arithMean (lastN (points.map PricePoint.price) lw.toNat)
  volatilitySq := sampleVarQ ((lastN points (min points.length 60)).map PricePoint.price)
  change_pct := price_change points
  caution := cautionText

theorem generate_signal_eq (pts : List PricePoint) (sw lw : ℤ) (hsw : 0 < sw)
    (hswlw : sw ≤ lw) (hlw : 2 ≤ lw) (hlen : lw ≤ (pts.length : ℤ)) :
    generate_signal pts sw lw = .ok (signalCore pts sw lw) := by
  have hlenp : (pts.map PricePoint.price).length = pts.length := List.length_map _ _
  have hmas : moving_average (pts.map PricePoint.price) sw =
      .ok (arithMean (lastN (pts.map PricePoint.price) sw.toNat)) := by
    apply moving_average_ok _ _ hsw; omega
  have hmal : moving_average (pts.map PricePoint.price) lw =
      .ok (arithMean (lastN (pts.map PricePoint.price) lw.toNat)) := by
    apply moving_average_ok _ _ (by omega); omega
  have hminT : (min (pts.length : ℤ) 60).toNat = min pts.length 60 := by omega
  have hvol : volatilitySq pts (min (pts.length : ℤ) 60) =
      .ok (sampleVarQ ((lastN pts (min pts.length 60)).map PricePoint.price)) := by
    rw [← hminT]
    apply volatilitySq_ok _ _ (by omega) (by omega)
  unfold generate_signal
  rw [if_neg (by omega)]
  simp only [hmas, hmal, hvol]
  rfl

theorem classify_fst_bull_iff (A B C : ℚ) :
    (classify A B C).1 = "偏多" ↔ A > B * 1.002 ∧ C > 0 := by
  unfold classify
  split_ifs with h1 h2
  · simp [h1]
  · exact iff_of_false (by decide) h1
  · exact iff_of_false (by decide) h1

theorem classify_fst_bear_iff (A B C : ℚ) :
    (classify A B C).1 = "偏空" ↔ A < B * 0.998 ∧ C < 0 := by
  unfold classify
  split_ifs with h1 h2
  · exact iff_of_false (by decide) (fun hh => lt_asymm h1.2 hh.2)
  · simp [h2]
  · exact iff_of_false (by decide) h2

theorem classify_fst_neutral_iff (A B C : ℚ) :
    (classify A B C).1 = "中性" ↔
      ¬(A > B * 1.002 ∧ C > 0) ∧ ¬(A < B * 0.998 ∧ C < 0) := by
  unfold classify
  split_ifs with h1 h2
  · exact iff_of_false (by decide) (fun hh => hh.1 h1)
  · exact iff_of_false (by decide) (fun hh => hh.2 h2)
  · exact iff_of_true rfl ⟨h1, h2⟩

theorem classify_snd_cases (A B C : ℚ) :
    (classify A B C).2 = "短期均线上穿长期均线，动能向上" ∨
    (classify A B C).2 = "短期均线下穿长期均线，注意回调" ∨
    (classify A B C).2 = "价格信号不明显" := by
  unfold classify
  split_ifs <;> simp

theorem not_suffix_classify_snd (A B C : ℚ) :
    ¬ volSuffix.data.IsSuffix (classify A B C).2.data := by
  rcases classify_snd_cases A B C with h | h | h <;> rw [h] <;> decide

theorem headlineWith_suffix_iff (base : String) (vol thr : ℚ)
    (hbase : ¬ volSuffix.data.IsSuffix base.data) :
    volSuffix.data.IsSuffix (headlineWith base vol thr).data ↔
      ((thr : ℚ) : ℝ) < Real.sqrt ((vol : ℚ) : ℝ) := by
  rw [← sqrtGtQ_iff vol thr]
  unfold headlineWith
  split_ifs with h
  · exact iff_of_true ⟨base.data, (String.data_append base volSuffix).symm⟩ h
  · exact iff_of_false hbase (by simpa using h)

theorem arithMean_lastN_val (prices : List ℚ) (n : ℕ) (hle : n ≤ prices.length) :
    arithMean (lastN prices n) = (lastN prices n).sum / (n : ℚ) := by
  rw [arithMean, lastN_length, min_eq_left hle]

theorem price_change_const (pts : List PricePoint) (c : ℚ)
    (hc : ∀ p ∈ pts, p.price = c) : price_change pts = 0 := by
  unfold price_change
  split
  · rfl
  · rename_i hge
    have h2 : pts.length - 2 < pts.length := by omega
    have h1 : pts.length - 1 < pts.length := by omega
    have hs : (pts.getD (pts.length - 2) default).price = c := by
      rw [List.getD_eq_getElem pts default h2]
      exact hc _ (List.getElem_mem h2)
    have ht : (pts.getD (pts.length - 1) default).price = c := by
      rw [List.getD_eq_getElem pts default h1]
      exact hc _ (List.getElem_mem h1)
    dsimp only
    rw [hs, ht]
    split_ifs with h0
    · rfl
    · rw [sub_self, zero_div, zero_mul]

/-- Claim C3: `moving_average` fails with the configuration error when the
window is nonpositive, fails with the insufficient-data error when the
series has fewer elements than the window, and otherwise returns the
arithmetic mean (sum over window size) of the last `window` elements; in
particular `moving_average [1,2,3,4] 2 = 3.5` and window `5` over four
points fails. -/
theorem moving_average_spec_C3 :
    (∀ (prices : List ℚ) (w : ℤ),
      (w ≤ 0 → moving_average prices w = .error .configurationError) ∧
      (0 < w → (prices.length : ℤ) < w →
        moving_average prices w = .error .insufficientDataError) ∧
      (0 < w → w ≤ (prices.length : ℤ) →
        moving_average prices w = .ok ((lastN prices w.toNat).sum / (w : ℚ)))) ∧
    moving_average [1, 2, 3, 4] 2 = .ok 3.5 ∧
    moving_average [1, 2, 3, 4] 5 = .error .insufficientDataError := by
  refine ⟨fun prices w => ⟨?_, ?_, ?_⟩, ?_, ?_⟩
  · intro h; unfold moving_average; rw [if_pos h]
  · intro h0 hlt; unfold moving_average; rw [if_neg (by omega), if_pos hlt]
  · intro h0 hle
    rw [moving_average_ok prices w h0 hle, arithMean_lastN prices w h0 hle]
  · with_unfolding_all rfl
  · with_unfolding_all rfl

/-- Witness for C3 at a concrete input: the mean branch applied to the
two-element series `[5, 7]` with window `2`. -/
theorem moving_average_spec_C3_witness :
    moving_average [(5 : ℚ), 7] 2 =
      .ok ((lastN [(5 : ℚ), 7] (2 : ℤ).toNat).sum / ((2 : ℤ) : ℚ)) :=
  (moving_average_spec_C3.1 [5, 7] 2).2.2 (by decide) (by decide)

/-- Claim C4 (amended): for every positive window, `volatility` returns
`0.0` without failing when the series has fewer points than the window;
when the window is at least `2` and the series has at least `window`
points it returns the sample standard deviation of the last `window`
prices (carried squared as the nonnegative sample variance, whose square
root is the source's float return value).  The original claim's "every
positive window" computation branch fails at `window = 1`:
`statistics.stdev` raises on a single data point — see the
counterexample. -/
theorem volatility_spec_C4 (pts : List PricePoint) (w : ℤ) :
    (0 < w → (pts.length : ℤ) < w → volatilitySq pts w = .ok 0) ∧
    (2 ≤ w → w ≤ (pts.length : ℤ) →
      volatilitySq pts w = .ok (sampleVarQ ((lastN pts w.toNat).map PricePoint.price)) ∧
      0 ≤ sampleVarQ ((lastN pts w.toNat).map PricePoint.price)) := by
  constructor
  · intro _ hlt; unfold volatilitySq; rw [if_pos hlt]
  · intro h2 hle
    refine ⟨volatilitySq_ok pts w h2 hle, sampleVarQ_nonneg _ ?_⟩
    rw [List.length_map, lastN_length]; omega

/-- Counterexample to C4 as stated: with the positive window `1` and a
one-point series (so at least `window` points), `volatility` does not
return the sample standard deviation — it raises `StatisticsError`. -/
theorem volatility_spec_C4_counterexample :
    (0 : ℤ) < 1 ∧ (1 : ℤ) ≤ (([⟨0, 5⟩] : List PricePoint).length : ℤ) ∧
      volatilitySq [⟨0, 5⟩] 1 = .error .statisticsError :=
  ⟨by decide, by decide, by with_unfolding_all rfl⟩

/-- Witness for C4 at a concrete input: both the lenient branch (window
larger than the series) and the computing branch (window `2` over two
points). -/
theorem volatility_spec_C4_witness :
    volatilitySq [⟨0, 100⟩, ⟨1, 101⟩] 5 = .ok 0 ∧
      volatilitySq [⟨0, 1⟩, ⟨1, 3⟩] 2 =
        .ok (sampleVarQ ((lastN ([⟨0, 1⟩, ⟨1, 3⟩] : List PricePoint) (2 : ℤ).toNat).map
          PricePoint.price)) :=
  ⟨(volatility_spec_C4 [⟨0, 100⟩, ⟨1, 101⟩] 5).1 (by decide) (by decide),
   ((volatility_spec_C4 [⟨0, 1⟩, ⟨1, 3⟩] 2).2 (by decide) (by decide)).1⟩

/-- Claim C5: `price_change` returns `0` when the series has fewer than
two points or the second-to-last price is `0`, and otherwise the percent
change `(last - prev) / prev * 100`; it never fails (it is a total
function in the embedding), and two points `100 → 110` yield `10`. -/
theorem price_change_spec_C5 :
    (∀ pts : List PricePoint,
      (pts.length < 2 → price_change pts = 0) ∧
      (∀ (front : List PricePoint) (a b : PricePoint), pts = front ++ [a, b] →
        price_change pts =
          if a.price = 0 then 0 else (b.price - a.price) / a.price * 100)) ∧
    price_change [⟨0, 100⟩, ⟨1, 110⟩] = 10 := by
  refine ⟨fun pts => ⟨?_, ?_⟩, by with_unfolding_all rfl⟩
  · intro h; unfold price_change; rw [if_pos h]
  · rintro front a b rfl
    have hlen : (front ++ [a, b]).length = front.length + 2 := by simp
    have ha : (front ++ [a, b]).getD ((front ++ [a, b]).length - 2) default = a := by
      rw [hlen, List.getD_eq_getElem?_getD, Nat.add_sub_cancel,
        List.getElem?_append_right (Nat.le_refl _), Nat.sub_self]
      rfl
    have hb : (front ++ [a, b]).getD ((front ++ [a, b]).length - 1) default = b := by
      rw [hlen, List.getD_eq_getElem?_getD, show front.length + 2 - 1 = front.length + 1 by omega,
        List.getElem?_append_right (by omega), Nat.add_sub_cancel_left]
      rfl
    unfold price_change
    rw [if_neg (by omega), ha, hb]

/-- Witness for C5 at a concrete input: the percent-change branch applied
to the two-point series `100 → 110`. -/
theorem price_change_spec_C5_witness :
    price_change [⟨0, 100⟩, ⟨1, 110⟩] =
      if (100 : ℚ) = 0 then 0
      else (((⟨1, 110⟩ : PricePoint)).price - ((⟨0, 100⟩ : PricePoint)).price) / 100 * 100 :=
  (price_change_spec_C5.1 [⟨0, 100⟩, ⟨1, 110⟩]).2 [] ⟨0, 100⟩ ⟨1, 110⟩ rfl

/-- Claim C9 (amended): `moving_average` rejects every nonpositive window
with the configuration error, but `volatility` performs no window
validation at all: on no input does it fail with the configuration error
(its only failure is `StatisticsError` from `statistics.stdev`).  The
original claim — that both operations fail for `window ≤ 0` — is refuted
by the counterexample, where `volatility` with window `0` succeeds. -/
theorem window_validation_C9 :
    (∀ (prices : List ℚ) (w : ℤ), w ≤ 0 →
      moving_average prices w = .error .configurationError) ∧
    (∀ (pts : List PricePoint) (w : ℤ),
      volatilitySq pts w ≠ .error .configurationError) := by
  constructor
  · intro prices w h; unfold moving_average; rw [if_pos h]
  · intro pts w
    unfold volatilitySq pyStdevSq
    split
    · simp
    · split <;> simp

/-- Counterexample to C9 as stated: `volatility` called with the
nonpositive window `0` on a two-point series does not fail — it returns
the sample variance `1/2` of the whole (Python slice `[-0:]`) series. -/
theorem window_validation_C9_counterexample :
    (0 : ℤ) ≤ 0 ∧ volatilitySq [⟨0, 1⟩, ⟨1, 2⟩] 0 = .ok (1 / 2) :=
  ⟨le_refl 0, by with_unfolding_all rfl⟩

/-- Witness for C9 at a concrete input: `moving_average` with window `-2`
fails with the configuration error while `volatility` with window `-2`
does not. -/
theorem window_validation_C9_witness :
    moving_average [(1 : ℚ)] (-2) = .error .configurationError ∧
      volatilitySq [⟨0, 1⟩] (-2) ≠ .error .configurationError :=
  ⟨window_validation_C9.1 [1] (-2) (by decide), window_validation_C9.2 [⟨0, 1⟩] (-2)⟩

/-- Claim C2 (amended): for positive windows `shortWindow ≤ longWindow`
with `longWindow ≥ 2`, `generate_signal` raises the insufficient-data
error if and only if the series has fewer than `longWindow` points, and
with at least `longWindow` points it returns a `Signal` without raising.
The original claim's "all positive windows" fails at
`shortWindow = longWindow = 1` with a one-point series, where
`statistics.stdev` raises on the single-point volatility slice — see the
counterexample. -/
theorem generate_signal_errors_C2 (pts : List PricePoint) (sw lw : ℤ)
    (hsw : 0 < sw) (hswlw : sw ≤ lw) (hlw : 2 ≤ lw) :
    (generate_signal pts sw lw = .error .insufficientDataError ↔
      (pts.length : ℤ) < lw) ∧
    (lw ≤ (pts.length : ℤ) → ∃ s, generate_signal pts sw lw = .ok s) := by
  constructor
  · constructor
    · intro herr
      by_contra hge
      push_neg at hge
      rw [generate_signal_eq pts sw lw hsw hswlw hlw hge] at herr
      exact absurd herr (by simp)
    · intro hlt
      unfold generate_signal
      rw [if_pos hlt]
  · intro h
    exact ⟨_, generate_signal_eq pts sw lw hsw hswlw hlw h⟩

/-- Counterexample to C2 as stated: with the positive equal windows
`shortWindow = longWindow = 1` and a series of exactly `longWindow = 1`
points, `generate_signal` does not return a `Signal` — it raises
`StatisticsError` (from `statistics.stdev` over the one-point volatility
slice), which is also not the insufficient-data error. -/
theorem generate_signal_errors_C2_counterexample :
    (0 : ℤ) < 1 ∧ (1 : ℤ) ≤ 1 ∧ (([⟨0, 1⟩] : List PricePoint).length : ℤ) = 1 ∧
      generate_signal [⟨0, 1⟩] 1 1 = .error .statisticsError :=
  ⟨by decide, by decide, by decide, by with_unfolding_all rfl⟩

/-- Witness for C2 at a concrete input: windows `1 ≤ 2` over a two-point
series produce a `Signal`. -/
theorem generate_signal_errors_C2_witness :
    ∃ s, generate_signal [⟨0, 1⟩, ⟨1, 2⟩] 1 2 = .ok s :=
  (generate_signal_errors_C2 [⟨0, 1⟩, ⟨1, 2⟩] 1 2 (by decide) (by decide)
    (by decide)).2 (by decide)

/-- Claim C10: inside `generate_signal` the volatility window
`min(len(points), 60)` never exceeds the series length, so the lenient
zero branch of `volatility` is unreachable: for every signal-producing
call with `longWindow ≥ 2`, the `volatility` detail is the genuine sample
variance (squared sample standard deviation) of the last
`min(len, 60)` prices. -/
theorem generate_signal_volwindow_C10 (pts : List PricePoint) (sw lw : ℤ)
    (hsw : 0 < sw) (hswlw : sw ≤ lw) (hlw : 2 ≤ lw)
    (hlen : lw ≤ (pts.length : ℤ)) :
    min (pts.length : ℤ) 60 ≤ (pts.length : ℤ) ∧
    2 ≤ min pts.length 60 ∧
    ∃ s, generate_signal pts sw lw = .ok s ∧
      s.volatilitySq =
        sampleVarQ ((lastN pts (min pts.length 60)).map PricePoint.price) :=
  ⟨min_le_left _ _, by omega,
   signalCore pts sw lw, generate_signal_eq pts sw lw hsw hswlw hlw hlen, rfl⟩

/-- Witness for C10 at a concrete input: windows `1 ≤ 2` over a two-point
series. -/
theorem generate_signal_volwindow_C10_witness :
    ∃ s, generate_signal [⟨0, 1⟩, ⟨1, 3⟩] 1 2 = .ok s ∧
      s.volatilitySq =
        sampleVarQ ((lastN ([⟨0, 1⟩, ⟨1, 3⟩] : List PricePoint)
          (min ([⟨0, 1⟩, ⟨1, 3⟩] : List PricePoint).length 60)).map PricePoint.price) :=
  (generate_signal_volwindow_C10 [⟨0, 1⟩, ⟨1, 3⟩] 1 2 (by decide) (by decide)
    (by decide) (by decide)).2.2

/-- Claim C1: with the default windows 20/60 and at least 60 points,
`generate_signal` classifies sentiment exactly by the dead-band rule —
Bullish (`偏多`) iff `shortMA > longMA * 1.002` and `changePct > 0`,
Bearish (`偏空`) iff `shortMA < longMA * 0.998` and `changePct < 0`,
Neutral (`中性`) otherwise, where `shortMA`/`longMA` are the means of the
last 20/60 prices and `changePct` the percent change of the last two
points — and, independently of the sentiment, the volatility suffix ends
the headline iff `vol > 0.01 * longMA` (with `vol` the sample standard
deviation, i.e. the square root of the carried `volatilitySq`). -/
theorem generate_signal_deadband_C1 (pts : List PricePoint)
    (hlen : 60 ≤ pts.length) :
    ∃ s, generate_signal pts = .ok s ∧
      s.short_ma = (lastN (pts.map PricePoint.price) 20).sum / 20 ∧
      s.long_ma = (lastN (pts.map PricePoint.price) 60).sum / 60 ∧
      s.change_pct = price_change pts ∧
      (s.sentiment = "偏多" ↔ s.short_ma > s.long_ma * 1.002 ∧ s.change_pct > 0) ∧
      (s.sentiment = "偏空" ↔ s.short_ma < s.long_ma * 0.998 ∧ s.change_pct < 0) ∧
      (s.sentiment = "中性" ↔
        ¬(s.short_ma > s.long_ma * 1.002 ∧ s.change_pct > 0) ∧
        ¬(s.short_ma < s.long_ma * 0.998 ∧ s.change_pct < 0)) ∧
      (volSuffix.data.IsSuffix s.headline.data ↔
        ((0.01 * s.long_ma : ℚ) : ℝ) < Real.sqrt ((s.volatilitySq : ℚ) : ℝ)) := by
  have hlenz : (60 : ℤ) ≤ (pts.length : ℤ) := by exact_mod_cast hlen
  have h20 : (20 : ℕ) ≤ (pts.map PricePoint.price).length := by
    rw [List.length_map]; omega
  have h60 : (60 : ℕ) ≤ (pts.map PricePoint.price).length := by
    rw [List.length_map]; omega
  refine ⟨signalCore pts 20 60,
    generate_signal_eq pts 20 60 (by decide) (by decide) (by decide) hlenz,
    ?_, ?_, rfl,
    classify_fst_bull_iff _ _ _, classify_fst_bear_iff _ _ _,
    classify_fst_neutral_iff _ _ _,
    headlineWith_suffix_iff _ _ _ (not_suffix_classify_snd _ _ _)⟩
  · show arithMean (lastN (pts.map PricePoint.price) 20) = _
    rw [arithMean_lastN_val _ 20 h20]
    norm_num
  · show arithMean (lastN (pts.map PricePoint.price) 60) = _
    rw [arithMean_lastN_val _ 60 h60]
    norm_num

/-- A flat 60-point series (every price `5`), for evaluating the signal
claims at a concrete input. -/
def flatSeries : List PricePoint :=
  (List.range 60).map (fun i => ⟨i, 5⟩)

/-- Witness for C1 at a concrete input: the default-window theorem applied
to a 60-point flat series. -/
theorem generate_signal_deadband_C1_witness :
    60 ≤ flatSeries.length ∧
    ∃ s, generate_signal flatSeries = .ok s ∧
      s.short_ma = (lastN (flatSeries.map PricePoint.price) 20).sum / 20 ∧
      s.long_ma = (lastN (flatSeries.map PricePoint.price) 60).sum / 60 ∧
      s.change_pct = price_change flatSeries ∧
      (s.sentiment = "偏多" ↔ s.short_ma > s.long_ma * 1.002 ∧ s.change_pct > 0) ∧
      (s.sentiment = "偏空" ↔ s.short_ma < s.long_ma * 0.998 ∧ s.change_pct < 0) ∧
      (s.sentiment = "中性" ↔
        ¬(s.short_ma > s.long_ma * 1.002 ∧ s.change_pct > 0) ∧
        ¬(s.short_ma < s.long_ma * 0.998 ∧ s.change_pct < 0)) ∧
      (volSuffix.data.IsSuffix s.headline.data ↔
        ((0.01 * s.long_ma : ℚ) : ℝ) < Real.sqrt ((s.volatilitySq : ℚ) : ℝ)) :=
  ⟨by decide, generate_signal_deadband_C1 flatSeries (by decide)⟩

/-- Claim C8 (amended): over a series of at least 60 points (default
windows), a strictly increasing series whose short mean clears the
long mean's +0.2 % dead-band and whose recent change is positive is
classified Bullish; a strictly decreasing series whose short mean clears
the −0.2 % dead-band with negative recent change is classified Bearish;
and a flat series is classified Neutral.  The original claim — that
monotonicity with rising window means and positive recent change alone
suffices for Bullish — is refuted by the counterexample, a slow ramp
whose means stay inside the dead-band. -/
theorem generate_signal_monotone_C8 (pts : List PricePoint)
    (hlen : 60 ≤ pts.length) :
    ∃ s, generate_signal pts = .ok s ∧
      (risingQ (pts.map PricePoint.price) →
        arithMean (lastN (pts.map PricePoint.price) 20) >
          arithMean (lastN (pts.map PricePoint.price) 60) * 1.002 →
        price_change pts > 0 → s.sentiment = "偏多") ∧
      (fallingQ (pts.map PricePoint.price) →
        arithMean (lastN (pts.map PricePoint.price) 20) <
          arithMean (lastN (pts.map PricePoint.price) 60) * 0.998 →
        price_change pts < 0 → s.sentiment = "偏空") ∧
      (∀ c : ℚ, (∀ p ∈ pts, p.price = c) → s.sentiment = "中性") := by
  have hlenz : (60 : ℤ) ≤ (pts.length : ℤ) := by exact_mod_cast hlen
  refine ⟨signalCore pts 20 60,
    generate_signal_eq pts 20 60 (by decide) (by decide) (by decide) hlenz,
    ?_, ?_, ?_⟩
  · intro _ hband hchg
    exact (classify_fst_bull_iff _ _ _).mpr ⟨hband, hchg⟩
  · intro _ hband hchg
    exact (classify_fst_bear_iff _ _ _).mpr ⟨hband, hchg⟩
  · intro c hc
    have hchg : price_change pts = 0 := price_change_const pts c hc
    refine (classify_fst_neutral_iff _ _ _).mpr ⟨?_, ?_⟩
    · intro hh
      rw [hchg] at hh
      exact absurd hh.2 (lt_irrefl 0)
    · intro hh
      rw [hchg] at hh
      exact absurd hh.2 (lt_irrefl 0)

/-- A strictly increasing 60-point series whose increments are far too
small for the 0.2 % dead-band: prices 1000000, 1000001, …, 1000059. -/
def slowRampSeries : List PricePoint :=
  (List.range 60).map (fun i => ⟨i, 1000000 + i⟩)

set_option maxRecDepth 40000 in
/-- Counterexample to C8 as stated: `slowRampSeries` is strictly
increasing, its sliding short- and long-window means strictly rise, its
most recent change is positive, yet `generate_signal` classifies it
Neutral (`中性`), not Bullish — monotone growth inside the dead-band does
not produce a Bullish signal. -/
theorem generate_signal_monotone_C8_counterexample :
    60 ≤ slowRampSeries.length ∧
    risingQ (slowRampSeries.map PricePoint.price) ∧
    windowMeansRising (slowRampSeries.map PricePoint.price) 20 ∧
    windowMeansRising (slowRampSeries.map PricePoint.price) 60 ∧
    0 < price_change slowRampSeries ∧
    Except.map Signal.sentiment (generate_signal slowRampSeries) = .ok "中性" :=
  ⟨by decide, by with_unfolding_all decide, by with_unfolding_all decide,
   by with_unfolding_all decide, by with_unfolding_all decide,
   by with_unfolding_all rfl⟩

/-- A strictly increasing 60-point series steep enough for the dead-band:
prices 1, 2, …, 60. -/
def steepRampSeries : List PricePoint :=
  (List.range 60).map (fun i => ⟨i, 1 + i⟩)

set_option maxRecDepth 40000 in
/-- Witness for C8 at a concrete input: the steep ramp satisfies the
amended Bullish hypotheses and is classified `偏多`. -/
theorem generate_signal_monotone_C8_witness :
    ∃ s, generate_signal steepRampSeries = .ok s ∧ s.sentiment = "偏多" := by
  obtain ⟨s, hok, hbull, -, -⟩ :=
    generate_signal_monotone_C8 steepRampSeries (by decide)
  exact ⟨s, hok, hbull (by with_unfolding_all decide)
    (by with_unfolding_all decide) (by with_unfolding_all decide)⟩

theorem trendAction_fst_buy_iff (a d : ℚ) :
    (trendAction a d).1 = "Consider buying" ↔ a > 0.25 ∧ d > 0.5 := by
  unfold trendAction
  split_ifs with h1 h2
  · simp [h1]
  · exact iff_of_false (by decide) h1
  · exact iff_of_false (by decide) h1

theorem trendAction_fst_reduce_iff (a d : ℚ) :
    (trendAction a d).1 = "Consider reducing exposure" ↔ a < -0.25 ∧ d < -0.5 := by
  unfold trendAction
  split_ifs with h1 h2
  · exact iff_of_false (by decide) (fun hh => by linarith [h1.1, hh.1])
  · simp [h2]
  · exact iff_of_false (by decide) h2

theorem trendAction_fst_hold_iff (a d : ℚ) :
    (trendAction a d).1 = "Hold / wait" ↔
      ¬(a > 0.25 ∧ d > 0.5) ∧ ¬(a < -0.25 ∧ d < -0.5) := by
  unfold trendAction
  split_ifs with h1 h2
  · exact iff_of_false (by decide) (fun hh => hh.1 h1)
  · exact iff_of_false (by decide) (fun hh => hh.2 h2)
  · exact iff_of_true rfl ⟨h1, h2⟩

theorem trendAction_snd_cases (a d : ℚ) :
    (trendAction a d).2 = "Momentum is positive across multiple timeframes." ∨
    (trendAction a d).2 = "Downward pressure visible in short-term and daily moves." ∨
    (trendAction a d).2 = "Signals are mixed; waiting for clarity may reduce risk." := by
  unfold trendAction
  split_ifs <;> simp

theorem weeklyNotes_up_mem (w : ℚ) :
    "Strong weekly performance suggests upward trend." ∈ weeklyNotes w ↔ w > 5 := by
  unfold weeklyNotes
  split_ifs with h1 h2
  · simp [h1]
  · refine iff_of_false (fun hm => ?_) h1
    rw [List.mem_singleton] at hm
    exact absurd hm (by decide)
  · exact iff_of_false (List.not_mem_nil _) h1

theorem weeklyNotes_down_mem (w : ℚ) :
    "Sustained weekly drawdown indicates elevated downside risk." ∈ weeklyNotes w ↔
      w < -5 := by
  unfold weeklyNotes
  split_ifs with h1 h2
  · refine iff_of_false (fun hm => ?_) (fun hw => by linarith)
    rw [List.mem_singleton] at hm
    exact absurd hm (by decide)
  · simp [h2]
  · exact iff_of_false (List.not_mem_nil _) h2

theorem append_ne_of_head (p r q : String) (c d : Char)
    (hp : p.data.head? = some c) (hq : q.data.head? = some d) (hcd : c ≠ d) :
    p ++ r ≠ q := by
  intro h
  have h2 : (p ++ r).data.head? = q.data.head? := by rw [h]
  rw [String.data_append] at h2
  cases hp2 : p.data with
  | nil => rw [hp2] at hp; exact Option.noConfusion hp
  | cons a l =>
    rw [hp2] at hp h2
    rw [List.cons_append, List.head?_cons, hq] at h2
    rw [List.head?_cons] at hp
    injection hp with hac
    injection h2 with had
    exact hcd (hac ▸ had)

theorem append3_ne_of_head (p f s q : String) (c d : Char)
    (hp : p.data.head? = some c) (hq : q.data.head? = some d) (hcd : c ≠ d) :
    p ++ f ++ s ≠ q := by
  rw [String.append_assoc]
  exact append_ne_of_head p (f ++ s) q c d hp hq hcd

/-- Claim C6: `summarize_trend`'s action is "Consider buying" iff the 1h
change exceeds 0.25 and the 24h change exceeds 0.5, "Consider reducing
exposure" iff the 1h change is below −0.25 and the 24h change below −0.5,
and "Hold / wait" otherwise; the weekly reasons (appended when the 7d
change exceeds 5, resp. is below −5) appear independently of the action
branch; and the three formatted percentage changes are always among the
reasons. -/
theorem summarize_trend_spec_C6 (md : TrendInput) :
    ((summarize_trend md).action = "Consider buying" ↔
      md.price_change_percentage_1h_in_currency.getD 0 > 0.25 ∧
      md.price_change_percentage_24h_in_currency.getD 0 > 0.5) ∧
    ((summarize_trend md).action = "Consider reducing exposure" ↔
      md.price_change_percentage_1h_in_currency.getD 0 < -0.25 ∧
      md.price_change_percentage_24h_in_currency.getD 0 < -0.5) ∧
    ((summarize_trend md).action = "Hold / wait" ↔
      ¬(md.price_change_percentage_1h_in_currency.getD 0 > 0.25 ∧
        md.price_change_percentage_24h_in_currency.getD 0 > 0.5) ∧
      ¬(md.price_change_percentage_1h_in_currency.getD 0 < -0.25 ∧
        md.price_change_percentage_24h_in_currency.getD 0 < -0.5)) ∧
    ("Strong weekly performance suggests upward trend." ∈
        (summarize_trend md).reasons ↔
      md.price_change_percentage_7d_in_currency.getD 0 > 5) ∧
    ("Sustained weekly drawdown indicates elevated downside risk." ∈
        (summarize_trend md).reasons ↔
      md.price_change_percentage_7d_in_currency.getD 0 < -5) ∧
    ("1h change: " ++ fmtPlus2 (md.price_change_percentage_1h_in_currency.getD 0) ++ "%")
      ∈ (summarize_trend md).reasons ∧
    ("24h change: " ++ fmtPlus2 (md.price_change_percentage_24h_in_currency.getD 0) ++ "%")
      ∈ (summarize_trend md).reasons ∧
    ("7d change: " ++ fmtPlus2 (md.price_change_percentage_7d_in_currency.getD 0) ++ "%")
      ∈ (summarize_trend md).reasons := by
  dsimp only [summarize_trend]
  set a := md.price_change_percentage_1h_in_currency.getD 0 with ha
  set d := md.price_change_percentage_24h_in_currency.getD 0 with hd
  set w := md.price_change_percentage_7d_in_currency.getD 0 with hw
  have hS1 : ("Strong weekly performance suggests upward trend." : String) ≠
      "1h change: " ++ fmtPlus2 a ++ "%" :=
    Ne.symm (append3_ne_of_head _ _ _ _ '1' 'S' (by decide) (by decide) (by decide))
  have hS2 : ("Strong weekly performance suggests upward trend." : String) ≠
      "24h change: " ++ fmtPlus2 d ++ "%" :=
    Ne.symm (append3_ne_of_head _ _ _ _ '2' 'S' (by decide) (by decide) (by decide))
  have hS3 : ("Strong weekly performance suggests upward trend." : String) ≠
      "7d change: " ++ fmtPlus2 w ++ "%" :=
    Ne.symm (append3_ne_of_head _ _ _ _ '7' 'S' (by decide) (by decide) (by decide))
  have hSb : ("Strong weekly performance suggests upward trend." : String) ≠
      (trendAction a d).2 := by
    rcases trendAction_snd_cases a d with h | h | h <;> rw [h] <;> decide
  have hD1 : ("Sustained weekly drawdown indicates elevated downside risk." : String) ≠
      "1h change: " ++ fmtPlus2 a ++ "%" :=
    Ne.symm (append3_ne_of_head _ _ _ _ '1' 'S' (by decide) (by decide) (by decide))
  have hD2 : ("Sustained weekly drawdown indicates elevated downside risk." : String) ≠
      "24h change: " ++ fmtPlus2 d ++ "%" :=
    Ne.symm (append3_ne_of_head _ _ _ _ '2' 'S' (by decide) (by decide) (by decide))
  have hD3 : ("Sustained weekly drawdown indicates elevated downside risk." : String) ≠
      "7d change: " ++ fmtPlus2 w ++ "%" :=
    Ne.symm (append3_ne_of_head _ _ _ _ '7' 'S' (by decide) (by decide) (by decide))
  have hDb : ("Sustained weekly drawdown indicates elevated downside risk." : String) ≠
      (trendAction a d).2 := by
    rcases trendAction_snd_cases a d with h | h | h <;> rw [h] <;> decide
  refine ⟨trendAction_fst_buy_iff a d, trendAction_fst_reduce_iff a d,
    trendAction_fst_hold_iff a d, ?_, ?_, ?_, ?_, ?_⟩
  · rw [List.mem_append, List.mem_append]
    simp only [List.mem_cons, List.not_mem_nil, or_false, hS1, hS2, hS3, hSb,
      false_or]
    exact weeklyNotes_up_mem w
  · rw [List.mem_append, List.mem_append]
    simp only [List.mem_cons, List.not_mem_nil, or_false, hD1, hD2, hD3, hDb,
      false_or]
    exact weeklyNotes_down_mem w
  · simp [List.mem_append]
  · simp [List.mem_append]
  · simp [List.mem_append]

/-- Witness for C6 at a concrete input: strongly positive changes produce
the buying action via the theorem's first equivalence. -/
theorem summarize_trend_spec_C6_witness :
    (summarize_trend ⟨some 0.5, some 1, some 6⟩).action = "Consider buying" :=
  (summarize_trend_spec_C6 ⟨some 0.5, some 1, some 6⟩).1.mpr
    ⟨by norm_num, by norm_num⟩

/-- The value Python's `float(record.get(key, 0.0))` produces for a
percentage-change field that is absent (`0`) or numeric; a present-but-null
field is not covered (there `float(None)` raises). -/
def chgVal (f : Option (Option ℚ)) : ℚ := (f.getD (some 0)).getD 0

theorem isMissingField_false_iff (f : Option (Option ℚ)) :
    isMissingField f = false ↔ ∃ v, f = some (some v) := by
  cases f with
  | none => simp [isMissingField]
  | some o => cases o <;> simp [isMissingField]

theorem pyItemFloat_ne_ds (f : Option (Option ℚ)) :
    pyItemFloat f ≠ .error .dataSourceError := by
  cases f with
  | none => simp [pyItemFloat]
  | some o => cases o <;> simp [pyItemFloat, pyFloat]

theorem pyGetFloat_ne_ds (f : Option (Option ℚ)) :
    pyGetFloat f ≠ .error .dataSourceError := by
  cases f with
  | none => simp [pyGetFloat, pyFloat]
  | some o => cases o <;> simp [pyGetFloat, pyFloat]

theorem pyGetFloat_ok (f : Option (Option ℚ)) (h : f ≠ some none) :
    pyGetFloat f = .ok (chgVal f) := by
  cases f with
  | none => rfl
  | some o =>
    cases o with
    | none => exact absurd rfl h
    | some v => rfl

theorem except_bind_ne {ε α β : Type} (x : Except ε α) (f : α → Except ε β)
    (e : ε) (hx : x ≠ .error e) (hf : ∀ a, f a ≠ .error e) :
    (x >>= f) ≠ .error e := by
  cases x with
  | error e' =>
    intro h
    have h2 : (Except.error e' : Except ε β) = Except.error e :=
      (rfl : (Except.error e' : Except ε α) >>= f = Except.error e').symm.trans h
    have he : e' = e := by injection h2
    exact hx (he ▸ rfl)
  | ok a =>
    intro h
    exact hf a ((rfl : (Except.ok a : Except ε α) >>= f = f a).symm.trans h)

theorem build_snapshot_ok (r : RawRecord) (v1 v2 v3 v4 v5 w1 w2 w3 : ℚ)
    (hval : validate_record r = .ok ())
    (e1 : pyItemFloat r.current_price = .ok v1)
    (e2 : pyItemFloat r.high_24h = .ok v2)
    (e3 : pyItemFloat r.low_24h = .ok v3)
    (e4 : pyItemFloat r.market_cap = .ok v4)
    (e5 : pyItemFloat r.total_volume = .ok v5)
    (c1 : pyGetFloat r.price_change_percentage_1h_in_currency = .ok w1)
    (c2 : pyGetFloat r.price_change_percentage_24h_in_currency = .ok w2)
    (c3 : pyGetFloat r.price_change_percentage_7d_in_currency = .ok w3) :
    build_snapshot r = .ok ⟨v1, v2, v3, v4, v5, w1, w2, w3⟩ := by
  unfold build_snapshot
  rw [hval, e1, e2, e3, e4, e5, c1, c2, c3]
  rfl

/-- Claim C7 (amended): building a snapshot from a raw record fails with
`DataSourceError` if and only if one of the five required fields
(`current_price`, `high_24h`, `low_24h`, `market_cap`, `total_volume`) is
absent or null; when all five carry values and each percentage-change
field is absent or numeric (not null), construction succeeds with the
absent change fields defaulted to `0.0`.  The original claim's "when all
five are present, construction succeeds" fails for a present-but-null
change field, where `float(None)` raises `TypeError` — see the
counterexample. -/
theorem build_snapshot_spec_C7 (r : RawRecord) :
    (build_snapshot r = .error .dataSourceError ↔
      isMissingField r.current_price = true ∨ isMissingField r.high_24h = true ∨
      isMissingField r.low_24h = true ∨ isMissingField r.market_cap = true ∨
      isMissingField r.total_volume = true) ∧
    (isMissingField r.current_price = false → isMissingField r.high_24h = false →
     isMissingField r.low_24h = false → isMissingField r.market_cap = false →
     isMissingField r.total_volume = false →
     r.price_change_percentage_1h_in_currency ≠ some none →
     r.price_change_percentage_24h_in_currency ≠ some none →
     r.price_change_percentage_7d_in_currency ≠ some none →
     ∃ s, build_snapshot r = .ok s ∧
       (r.price_change_percentage_1h_in_currency = none →
         s.price_change_percentage_1h_in_currency = 0) ∧
       (∀ v, r.price_change_percentage_1h_in_currency = some (some v) →
         s.price_change_percentage_1h_in_currency = v) ∧
       (r.price_change_percentage_24h_in_currency = none →
         s.price_change_percentage_24h_in_currency = 0) ∧
       (∀ v, r.price_change_percentage_24h_in_currency = some (some v) →
         s.price_change_percentage_24h_in_currency = v) ∧
       (r.price_change_percentage_7d_in_currency = none →
         s.price_change_percentage_7d_in_currency = 0) ∧
       (∀ v, r.price_change_percentage_7d_in_currency = some (some v) →
         s.price_change_percentage_7d_in_currency = v)) := by
  constructor
  · unfold build_snapshot validate_record
    split_ifs with hmiss
    · rw [Ne, List.filter_eq_nil_iff] at hmiss
      push_neg at hmiss
      obtain ⟨x, hx, hpx⟩ := hmiss
      refine iff_of_true rfl ?_
      simp only [List.mem_cons, List.not_mem_nil, or_false] at hx
      rcases hx with rfl | rfl | rfl | rfl | rfl
      · exact Or.inl hpx
      · exact Or.inr (Or.inl hpx)
      · exact Or.inr (Or.inr (Or.inl hpx))
      · exact Or.inr (Or.inr (Or.inr (Or.inl hpx)))
      · exact Or.inr (Or.inr (Or.inr (Or.inr hpx)))
    · rw [not_not, List.filter_eq_nil_iff] at hmiss
      have m1 := Bool.not_eq_true _ ▸ hmiss r.current_price (by simp)
      have m2 := Bool.not_eq_true _ ▸ hmiss r.high_24h (by simp)
      have m3 := Bool.not_eq_true _ ▸ hmiss r.low_24h (by simp)
      have m4 := Bool.not_eq_true _ ▸ hmiss r.market_cap (by simp)
      have m5 := Bool.not_eq_true _ ▸ hmiss r.total_volume (by simp)
      refine iff_of_false ?_ (by simp [m1, m2, m3, m4, m5])
      refine except_bind_ne _ _ _ (pyItemFloat_ne_ds _) fun _ =>
        except_bind_ne _ _ _ (pyItemFloat_ne_ds _) fun _ =>
        except_bind_ne _ _ _ (pyItemFloat_ne_ds _) fun _ =>
        except_bind_ne _ _ _ (pyItemFloat_ne_ds _) fun _ =>
        except_bind_ne _ _ _ (pyItemFloat_ne_ds _) fun _ =>
        except_bind_ne _ _ _ (pyGetFloat_ne_ds _) fun _ =>
        except_bind_ne _ _ _ (pyGetFloat_ne_ds _) fun _ =>
        except_bind_ne _ _ _ (pyGetFloat_ne_ds _) fun _ => fun h =>
        Except.noConfusion h
  · intro m1 m2 m3 m4 m5 n1 n2 n3
    obtain ⟨v1, hv1⟩ := (isMissingField_false_iff _).mp m1
    obtain ⟨v2, hv2⟩ := (isMissingField_false_iff _).mp m2
    obtain ⟨v3, hv3⟩ := (isMissingField_false_iff _).mp m3
    obtain ⟨v4, hv4⟩ := (isMissingField_false_iff _).mp m4
    obtain ⟨v5, hv5⟩ := (isMissingField_false_iff _).mp m5
    have hval : validate_record r = .ok () := by
      unfold validate_record
      rw [if_neg]
      rw [not_not, List.filter_eq_nil_iff]
      intro a ha
      simp only [List.mem_cons, List.not_mem_nil, or_false] at ha
      rcases ha with rfl | rfl | rfl | rfl | rfl <;>
        simp [m1, m2, m3, m4, m5]
    refine ⟨⟨v1, v2, v3, v4, v5,
        chgVal r.price_change_percentage_1h_in_currency,
        chgVal r.price_change_percentage_24h_in_currency,
        chgVal r.price_change_percentage_7d_in_currency⟩,
      build_snapshot_ok r v1 v2 v3 v4 v5 _ _ _ hval
        (by rw [hv1]; rfl) (by rw [hv2]; rfl) (by rw [hv3]; rfl)
        (by rw [hv4]; rfl) (by rw [hv5]; rfl)
        (pyGetFloat_ok _ n1) (pyGetFloat_ok _ n2) (pyGetFloat_ok _ n3),
      ?_, ?_, ?_, ?_, ?_, ?_⟩
    · intro h; show chgVal _ = 0; rw [h]; rfl
    · intro v h; show chgVal _ = v; rw [h]; rfl
    · intro h; show chgVal _ = 0; rw [h]; rfl
    · intro v h; show chgVal _ = v; rw [h]; rfl
    · intro h; show chgVal _ = 0; rw [h]; rfl
    · intro v h; show chgVal _ = v; rw [h]; rfl

/-- Counterexample to C7 as stated: a record with all five required fields
present and numeric but a present-and-null 1h percentage-change field does
not build a snapshot — `float(None)` raises `TypeError`. -/
theorem build_snapshot_spec_C7_counterexample :
    (∀ f ∈ [some (some (1 : ℚ)), some (some 1), some (some 1), some (some 1),
        some (some 1)], isMissingField f = false) ∧
    build_snapshot ⟨some (some 1), some (some 1), some (some 1), some (some 1),
      some (some 1), some none, none, none⟩ = .error .typeError :=
  ⟨by decide, by with_unfolding_all rfl⟩

/-- Witness for C7 at a concrete input: a record with all required values
and all change fields absent builds a snapshot whose 1h change defaults to
`0`. -/
theorem build_snapshot_spec_C7_witness :
    ∃ s, build_snapshot ⟨some (some 2), some (some 3), some (some 1),
        some (some 4), some (some 5), none, none, none⟩ = .ok s ∧
      s.price_change_percentage_1h_in_currency = 0 := by
  obtain ⟨s, hok, hz, -, -, -, -, -⟩ :=
    (build_snapshot_spec_C7 ⟨some (some 2), some (some 3), some (some 1),
        some (some 4), some (some 5), none, none, none⟩).2
      (by decide) (by decide) (by decide) (by decide) (by decide)
      (by decide) (by decide) (by decide)
  exact ⟨s, hok, hz rfl⟩

end BtcAiApi
